import Mathlib

/-!
Verification of the HuggingFace transformers.js provider adapter
(ai-sdk-huggingface): a shallow embedding of the embedding-model adapter,
the chat / completion language-model adapters (plain and OpenAI-compatible
variants), the prompt normalizer, the generation-option derivation, the
pipeline-memoization guard, and the streaming bridge, together with
theorems settling the specification claims about them.

Numbers flowing through the embedding averaging and the temperature option
are modelled as rationals; JavaScript strings are modelled as `String`,
arrays as `List`, thrown exceptions as `Except`, and the `async`
suspension points relevant to the memoization claim as explicit
interleaving steps.
-/

set_option autoImplicit false

namespace AiSdkHuggingface

/-! ### Embedding model adapter

Shallow embedding of `src/hf-transformersjs-embedding-model.ts`.
The feature-extraction pipeline composed with `extractVectorsFromOutput`
is modelled by an oracle `extract : String → Except String (List (List ℚ))`:
`Except.ok` is the per-token vector set extracted from the runtime output,
`Except.error` a thrown exception (the `catch` branch of `doEmbed`'s loop).
-/

/-- The fixed `maxEmbeddingsPerCall` getter (returns 2048). -/
def maxEmbeddingsPerCall : Nat := 2048

/-- The `{ provider, modelId }` part of the adapter's configuration. -/
structure EmbedConfig where
  provider : String
  modelId : String
  deriving Repr, DecidableEq

/-- The payload of `TooManyEmbeddingValuesForCallError`. -/
structure TooManyEmbeddingValuesForCallError where
  provider : String
  modelId : String
  maxEmbeddingsPerCall : Nat
  values : List String
  deriving Repr, DecidableEq

/-- The value returned by `doEmbed`: embeddings, `usage.tokens`, and the
pass-through response headers. -/
structure EmbedResult where
  embeddings : List (List ℚ)
  usageTokens : Nat
  rawResponseHeaders : List (String × String)
  deriving Repr, DecidableEq

/-- Observable pipeline activity of one `doEmbed` call: how many times the
pipeline factory ran and which inputs were passed to the extractor, in
order. -/
structure EmbedTrace where
  factoryCalls : Nat
  extractorInputs : List String
  deriving Repr, DecidableEq

/-- The token-vector averaging loop of `doEmbed` (lines 144-166 of the
source, with the source's local constants `numTokens` and `dim` inlined):
degenerate inputs give `[]`; otherwise component-wise sums of the vectors
whose width equals the first vector's width (`dim`), each divided by the
total token count. -/
def averageTokenVectors (tokenVectors : List (List ℚ)) : List ℚ :=
  if tokenVectors.length = 0 ∨
      (tokenVectors.length = 1 ∧ (tokenVectors.headD []).length = 0) then
    []
  else
    (tokenVectors.foldl
      (fun acc vec =>
        if vec.length = (tokenVectors.headD []).length then
          List.zipWith (fun a b => a + b) acc vec
        else acc)
      (List.replicate (tokenVectors.headD []).length (0 : ℚ))).map
      (fun x => x / (tokenVectors.length : ℚ))

/-- The body of `doEmbed`'s per-input `try`/`catch`: a successful
extraction is averaged, a thrown exception yields the empty vector. -/
def embedOne (extract : String → Except String (List (List ℚ)))
    (input : String) : List ℚ :=
  match extract input with
  | Except.ok tokenVectors => averageTokenVectors tokenVectors
  | Except.error _ => []

/-- `doEmbed`: the limit check precedes `ensurePipeline`; under the limit
the pipeline is ensured (factory runs only when no instance is cached) and
each input is embedded independently, in order. The returned triple is
(result or thrown error, pipeline instance afterwards, observable trace). -/
def doEmbed (cfg : EmbedConfig)
    (extract : String → Except String (List (List ℚ)))
    (pipelineInstance : Option Unit) (values : List String)
    (headers : List (String × String)) :
    Except TooManyEmbeddingValuesForCallError EmbedResult ×
      Option Unit × EmbedTrace :=
  if values.length > maxEmbeddingsPerCall then
    (Except.error
      { provider := cfg.provider
        modelId := cfg.modelId
        maxEmbeddingsPerCall := maxEmbeddingsPerCall
        values := values },
     pipelineInstance,
     { factoryCalls := 0, extractorInputs := [] })
  else
    (Except.ok
      { embeddings := values.map (embedOne extract)
        usageTokens := values.length
        rawResponseHeaders := headers },
     some (),
     { factoryCalls := if pipelineInstance.isSome then 0 else 1
       extractorInputs := values })

/-- The arithmetic mean of a uniform token-vector set, written exactly as
the specification describes it: entry `i` is the sum over all token
vectors of their `i`-th component, divided by the token count. Used to
compare the source's accumulation loop against the spec's wording. -/
def componentwiseMeanSpec (tokenVectors : List (List ℚ)) (dim : Nat) :
    List ℚ :=
  (List.range dim).map (fun i =>
    ((tokenVectors.map (fun v => v.getD i 0)).sum) /
      (tokenVectors.length : ℚ))

/-! ### Prompt normalizer

Shallow embedding of `convertPromptToString` from
`src/hf-transformersjs-chat-language-model.ts` (the OpenAI-compatible chat
adapter contains a verbatim copy of the same function). -/

/-- One prompt part; `text = some s` models a part object carrying a
`text` field (the `'text' in part` check), `none` a part without one. -/
structure Part where
  text : Option String
  deriving Repr, DecidableEq

/-- A message's `content`: a plain string, an array of parts, or any other
shape (the fall-through branch of the source). -/
inductive MessageContent where
  | str (s : String)
  | parts (ps : List Part)
  | other
  deriving Repr, DecidableEq

/-- A role-tagged prompt message. -/
structure Message where
  role : String
  content : MessageContent
  deriving Repr, DecidableEq

/-- The uniform prompt representation: a raw string or a message array. -/
inductive Prompt where
  | str (s : String)
  | messages (ms : List Message)
  deriving Repr, DecidableEq

/-- JavaScript `Array.prototype.join(sep)` on an array of strings. -/
def joinWith (sep : String) : List String → String
  | [] => ""
  | [x] => x
  | x :: y :: ys => x ++ sep ++ joinWith sep (y :: ys)

/-- The per-message body of the `prompt.map(...)` in
`convertPromptToString`: parts are filtered to those carrying `text` and
joined with a single space; string content renders as `role: content`;
anything else renders as the empty string. -/
def renderMessage (message : Message) : String :=
  match message.content with
  | MessageContent.parts ps => joinWith " " (ps.filterMap Part.text)
  | MessageContent.str s => message.role ++ ": " ++ s
  | MessageContent.other => ""

/-- `convertPromptToString`: strings pass through unchanged; message
arrays are rendered per message and joined with newlines. -/
def convertPromptToString (prompt : Prompt) : String :=
  match prompt with
  | Prompt.str s => s
  | Prompt.messages ms => joinWith "\n" (ms.map renderMessage)

/-! ### Generation options

All four language-model adapters derive the same runtime options record
from `options.maxTokens` and `options.temperature`. -/

/-- The runtime options handed to the text-generation pipeline. -/
structure GenerationOptions where
  max_new_tokens : Nat
  do_sample : Bool
  temperature : ℚ
  deriving Repr, DecidableEq

/-- The `generationOptions` object built in every `doGenerate` / `doStream`
of the language-model adapters: `maxTokens ?? 512`,
`(temperature ?? 0) > 0`, `temperature ?? 0`. -/
def mkGenerationOptions (maxTokens : Option Nat) (temperature : Option ℚ) :
    GenerationOptions :=
  { max_new_tokens := maxTokens.getD 512
    do_sample := decide (0 < temperature.getD 0)
    temperature := temperature.getD 0 }

/-! ### Finish reasons -/

/-- The closed finish-reason enumeration of the consuming interface
(`LanguageModelV1FinishReason`). -/
inductive FinishReason where
  | stop
  | length
  | contentFilter
  | toolCalls
  | error
  | other
  | unknown
  deriving Repr, DecidableEq

/-- Modelled from the spec: the finish-reason mapper
`mapOpenAICompatibleFinishReason` lives in
`src/map-openai-compatible-finish-reason.ts`, which is not among the
provided sources (only its import and its callers are). Per spec section
4.2 it is a pure total function translating a runtime completion-reason
code into the closed enumeration, with unknown raw codes mapping to a safe
default rather than throwing. -/
def mapOpenAICompatibleFinishReason (rawReason : String) : FinishReason :=
  match rawReason with
  | "stop" => FinishReason.stop
  | "length" => FinishReason.length
  | "content_filter" => FinishReason.contentFilter
  | "function_call" => FinishReason.toolCalls
  | "tool_calls" => FinishReason.toolCalls
  | _ => FinishReason.unknown

/-! ### Chat language-model adapters

Shallow embedding of `doGenerateImpl` from
`src/hf-transformersjs-chat-language-model.ts` and
`src/hf-transformersjs-chat-language-model-openai-compatible.ts`. The
loaded pipeline is modelled as a function from prompt text and options to
either a thrown error or an output array. -/

/-- Errors raised by the modelled generate/stream paths. -/
inductive GenError where
  | pipelineFailure (message : String)
  | unexpectedOutputFormat
  | typeError
  deriving Repr, DecidableEq

/-- One element of the plain text-generation output array. -/
structure TextGenerationOutput where
  generated_text : String
  deriving Repr, DecidableEq

/-- The value returned by the chat adapters' `doGenerateImpl`. -/
structure ChatGenResult where
  text : String
  finishReason : FinishReason
  promptTokens : Nat
  completionTokens : Nat
  rawPrompt : String
  rawSettings : GenerationOptions
  deriving Repr, DecidableEq

/-- `doGenerateImpl` of the plain chat adapter: normalize the prompt,
derive options, run the pipeline, require a first output element, estimate
token counts as `ceil(length / 4)`, and fix the finish reason to stop. -/
def chatDoGenerateImpl
    (pn : String → GenerationOptions →
      Except GenError (List TextGenerationOutput))
    (prompt : Prompt) (maxTokens : Option Nat) (temperature : Option ℚ) :
    Except GenError ChatGenResult :=
  let promptText := convertPromptToString prompt
  let generationOptions := mkGenerationOptions maxTokens temperature
  match pn promptText generationOptions with
  | Except.error e => Except.error e
  | Except.ok result =>
    match result.head? with
    | none => Except.error GenError.unexpectedOutputFormat
    | some first =>
      let generatedText := first.generated_text
      Except.ok
        { text := generatedText
          finishReason := FinishReason.stop
          promptTokens := (promptText.length + 3) / 4
          completionTokens := (generatedText.length + 3) / 4
          rawPrompt := promptText
          rawSettings := generationOptions }

/-- One element of the OpenAI-compatible chat adapter's pipeline output:
the adapter reads `generated_text` from the object stored at key `-1`;
the raw completion reason that may accompany the output is carried along
but never read by this adapter. -/
structure OpenAIChatOutput where
  neg1 : TextGenerationOutput
  finish_reason : Option String
  deriving Repr, DecidableEq

/-- `doGenerateImpl` of the OpenAI-compatible chat adapter: same shape as
the plain one except that the text is read from `result[0][-1]` (a missing
first element would throw a TypeError) and the finish reason is likewise
fixed to stop. -/
def chatOpenAICompatibleDoGenerateImpl
    (pn : String → GenerationOptions →
      Except GenError (List OpenAIChatOutput))
    (prompt : Prompt) (maxTokens : Option Nat) (temperature : Option ℚ) :
    Except GenError ChatGenResult :=
  let promptText := convertPromptToString prompt
  let generationOptions := mkGenerationOptions maxTokens temperature
  match pn promptText generationOptions with
  | Except.error e => Except.error e
  | Except.ok result =>
    match result.head? with
    | none => Except.error GenError.typeError
    | some first =>
      let generatedText := first.neg1.generated_text
      Except.ok
        { text := generatedText
          finishReason := FinishReason.stop
          promptTokens := (promptText.length + 3) / 4
          completionTokens := (generatedText.length + 3) / 4
          rawPrompt := promptText
          rawSettings := generationOptions }

/-! ### Completion language-model adapters

Shallow embedding of `doGenerate` from
`src/hf-transformersjs-completion-language-model.ts` (both classes in that
file). -/

/-- The `{prompt, ...generationOptions}` payload serialized into
`request.body`. -/
structure RequestBody where
  prompt : String
  options : GenerationOptions
  deriving Repr, DecidableEq

/-- The value returned by the plain completion adapter's `doGenerate`:
note that it carries no finish reason at all. -/
structure CompletionGenResult where
  text : String
  requestBody : RequestBody
  deriving Repr, DecidableEq

/-- `doGenerate` of the plain completion adapter: reading
`result[0].generated_text` from an empty output array would throw. -/
def completionDoGenerate
    (pn : String → GenerationOptions →
      Except GenError (List TextGenerationOutput))
    (prompt : String) (maxTokens : Option Nat) (temperature : Option ℚ) :
    Except GenError CompletionGenResult :=
  let generationOptions := mkGenerationOptions maxTokens temperature
  match pn prompt generationOptions with
  | Except.error e => Except.error e
  | Except.ok result =>
    match result.head? with
    | none => Except.error GenError.typeError
    | some first =>
      Except.ok
        { text := first.generated_text
          requestBody := { prompt := prompt, options := generationOptions } }

/-- One element of the OpenAI-compatible completion pipeline output: text
plus the raw completion reason read by the adapter. -/
structure OpenAICompletionOutput where
  generated_text : String
  finish_reason : String
  deriving Repr, DecidableEq

/-- The value returned by the OpenAI-compatible completion adapter's
`doGenerate`. -/
structure CompletionOpenAIGenResult where
  text : String
  finishReason : FinishReason
  requestBody : RequestBody
  deriving Repr, DecidableEq

/-- `doGenerate` of the OpenAI-compatible completion adapter: the finish
reason is `mapOpenAICompatibleFinishReason(result[0].finish_reason)`. -/
def completionOpenAICompatibleDoGenerate
    (pn : String → GenerationOptions →
      Except GenError (List OpenAICompletionOutput))
    (prompt : String) (maxTokens : Option Nat) (temperature : Option ℚ) :
    Except GenError CompletionOpenAIGenResult :=
  let generationOptions := mkGenerationOptions maxTokens temperature
  match pn prompt generationOptions with
  | Except.error e => Except.error e
  | Except.ok result =>
    match result.head? with
    | none => Except.error GenError.typeError
    | some first =>
      Except.ok
        { text := first.generated_text
          finishReason := mapOpenAICompatibleFinishReason first.finish_reason
          requestBody := { prompt := prompt, options := generationOptions } }

/-! ### Streaming bridge

Shallow embedding of `doStreamImplementation` from the chat adapters. The
pipeline invocation under streaming is modelled by the list of tokens it
pushes through the `TextStreamer` callback and its final outcome; the
`ReadableStream` handed to the caller is modelled by the list of enqueued
parts plus a single terminal state (closed or errored). -/

/-- One enqueued stream element. -/
inductive StreamPart where
  | textDelta (textDelta : String)
  deriving Repr, DecidableEq

/-- The terminal state of the stream: `controller.close()` or
`controller.error(e)`. -/
inductive StreamTerminal where
  | closed
  | errored (e : GenError)
  deriving Repr, DecidableEq

/-- The `start` callback of the plain chat adapter's `ReadableStream`: the
`tokenCallback` enqueues a text-delta for every truthy (non-empty) token
the runtime pushes, in order; when the pipeline call resolves the
controller is closed, and when it throws the controller enters the error
state (the enqueued prefix stays). -/
def runChatStreamStart {Output : Type} (tokens : List String)
    (outcome : Except GenError Output) :
    List StreamPart × StreamTerminal :=
  let enqueued := tokens.foldl
    (fun acc token =>
      if token ≠ "" then acc ++ [StreamPart.textDelta token] else acc)
    []
  match outcome with
  | Except.ok _ => (enqueued, StreamTerminal.closed)
  | Except.error e => (enqueued, StreamTerminal.errored e)

/-- The `start` callback of the OpenAI-compatible chat adapter's stream,
a verbatim copy of the plain one in its own source file. -/
def runOpenAIChatStreamStart {Output : Type} (tokens : List String)
    (outcome : Except GenError Output) :
    List StreamPart × StreamTerminal :=
  let enqueued := tokens.foldl
    (fun acc token =>
      if token ≠ "" then acc ++ [StreamPart.textDelta token] else acc)
    []
  match outcome with
  | Except.ok _ => (enqueued, StreamTerminal.closed)
  | Except.error e => (enqueued, StreamTerminal.errored e)

/-- The value returned by the chat adapters' `doStreamImplementation`:
the stream (events plus terminal state) and the raw call data. -/
structure ChatStreamResult where
  events : List StreamPart
  terminal : StreamTerminal
  rawPrompt : String
  rawSettings : GenerationOptions
  deriving Repr, DecidableEq

/-- `doStreamImplementation` of the plain chat adapter: `ensurePipeline`
is awaited before the stream object exists, so a load failure rejects the
setup call itself; once the stream has been built and returned, everything
that happens inside `start` (token pushes, pipeline resolution or
failure) is reflected on the stream, never thrown from the setup call. -/
def chatDoStreamImplementation
    (loadOutcome : Except GenError Unit)
    (tokens : List String)
    (runOutcome : Except GenError (List TextGenerationOutput))
    (prompt : Prompt) (maxTokens : Option Nat) (temperature : Option ℚ) :
    Except GenError ChatStreamResult :=
  match loadOutcome with
  | Except.error e => Except.error e
  | Except.ok _ =>
    let promptText := convertPromptToString prompt
    let generationOptions := mkGenerationOptions maxTokens temperature
    let started := runChatStreamStart tokens runOutcome
    Except.ok
      { events := started.1
        terminal := started.2
        rawPrompt := promptText
        rawSettings := generationOptions }

/-! ### Pipeline-ensure memoization

Shallow embedding of `ensurePipeline` (the same guard appears in every
adapter):

  if (!this.pipelineInstance) \x7b
    this.pipelineInstance = await pipeline(...)
  \x7d
  return this.pipelineInstance

The `await` separates the emptiness check (and the start of the factory
call) from the assignment, so one in-flight call is a two-phase task.
Distinct factory invocations yield distinct instance identifiers. -/

/-- The phase of one in-flight `ensurePipeline` call: not yet started;
checked the cache, found nothing, factory invoked and load in flight; or
finished with the instance it returns. -/
inductive EnsureTask where
  | notStarted
  | loading (instanceId : Nat)
  | finished (instanceId : Nat)
  deriving Repr, DecidableEq

/-- The adapter instance's shared state plus the phases of the concurrent
`ensurePipeline` calls against it. -/
structure EnsureState where
  pipelineInstance : Option Nat
  factoryCalls : Nat
  tasks : List EnsureTask
  deriving Repr, DecidableEq

/-- Advance call `i` by one phase, following the source: a starting call
that sees a cached instance finishes with it immediately; a starting call
that sees none invokes the factory and suspends at the `await`; a
suspended call resumes by writing its freshly loaded instance into
`pipelineInstance` and returning it. -/
def ensureStep (s : EnsureState) (i : Nat) : EnsureState :=
  match s.tasks.get? i with
  | some EnsureTask.notStarted =>
    match s.pipelineInstance with
    | some p => { s with tasks := s.tasks.set i (EnsureTask.finished p) }
    | none =>
      { s with
          factoryCalls := s.factoryCalls + 1
          tasks := s.tasks.set i (EnsureTask.loading s.factoryCalls) }
  | some (EnsureTask.loading p) =>
    { s with
        pipelineInstance := some p
        tasks := s.tasks.set i (EnsureTask.finished p) }
  | _ => s

/-- Run a schedule (a list of task indices, each entry advancing that task
by one phase). -/
def ensureRun (sched : List Nat) (s : EnsureState) : EnsureState :=
  sched.foldl ensureStep s

/-- A fresh adapter instance with `n` pending `ensurePipeline` calls. -/
def freshEnsureState (n : Nat) : EnsureState :=
  { pipelineInstance := none
    factoryCalls := 0
    tasks := List.replicate n EnsureTask.notStarted }

/-! ### Auxiliary definitions for the property statements and their
concrete instantiations -/

/-- The lines of a string, as character lists: its data split on the
newline character. -/
def linesOf (s : String) : List (List Char) :=
  s.data.splitOn '\n'

/-- A concrete extractor for the C1 witness: it throws on the input
`"bad"` and extracts two token vectors from every other input. -/
def extractSample : String → Except String (List (List ℚ)) :=
  fun s =>
    if s = "bad" then Except.error "boom"
    else Except.ok [[1, 2], [3, 4]]

/-- A concrete two-message prompt exercising both the string-content and
the parts-content rendering, for the C4 witness. -/
def witnessMessages : List Message :=
  [{ role := "user", content := MessageContent.str "hi" },
   { role := "assistant",
     content := MessageContent.parts
       [{ text := some "a" }, { text := none }] }]

/-- A pipeline whose output carries the raw completion reason `length`,
for the C6 counterexample and witness. -/
def rawLengthChatPipeline :
    String → GenerationOptions → Except GenError (List OpenAIChatOutput) :=
  fun _ _ =>
    Except.ok
      [{ neg1 := { generated_text := "hi" },
         finish_reason := some "length" }]

/-- A completion pipeline whose output carries the raw completion reason
`length`, for the C6 witness. -/
def rawLengthCompletionPipeline :
    String → GenerationOptions →
      Except GenError (List OpenAICompletionOutput) :=
  fun _ _ =>
    Except.ok [{ generated_text := "done", finish_reason := "length" }]

/-! ### Theorems -/

/-- C1: for every embedding batch with at most 2048 values, `doEmbed`
returns a result whose embeddings array has exactly one entry per input,
in input order (slot `i` is the independent embedding of input `i`); an
exception thrown while embedding a single input yields the empty vector in
that slot and leaves every other slot untouched. -/
theorem doEmbed_within_limit (cfg : EmbedConfig)
    (extract : String → Except String (List (List ℚ)))
    (pipelineInstance : Option Unit) (values : List String)
    (headers : List (String × String))
    (h : values.length ≤ maxEmbeddingsPerCall) :
    ∃ r : EmbedResult,
      (doEmbed cfg extract pipelineInstance values headers).1 =
          Except.ok r ∧
      r.embeddings.length = values.length ∧
      (∀ i : Nat, r.embeddings[i]? = (values[i]?).map (embedOne extract)) ∧
      (∀ (i : Nat) (v : String) (e : String), values[i]? = some v →
        extract v = Except.error e → r.embeddings[i]? = some []) := by
  refine ⟨{ embeddings := values.map (embedOne extract)
            usageTokens := values.length
            rawResponseHeaders := headers }, ?_, ?_, ?_, ?_⟩
  · simp [doEmbed, Nat.not_lt.mpr h]
  · simp
  · intro i
    simp [List.getElem?_map]
  · intro i v e hv he
    simp [List.getElem?_map, hv, embedOne, he]

/-- Witness for C1 at the batch `["good", "bad"]`. -/
theorem doEmbed_within_limit_witness :
    (["good", "bad"].length ≤ maxEmbeddingsPerCall) ∧
    (∃ r : EmbedResult,
      (doEmbed { provider := "hf", modelId := "m" } extractSample none
          ["good", "bad"] []).1 = Except.ok r ∧
      r.embeddings.length = ["good", "bad"].length ∧
      (∀ i : Nat,
        r.embeddings[i]? = ((["good", "bad"] : List String)[i]?).map
          (embedOne extractSample)) ∧
      (∀ (i : Nat) (v : String) (e : String),
        (["good", "bad"] : List String)[i]? = some v →
        extractSample v = Except.error e → r.embeddings[i]? = some [])) :=
  ⟨by decide,
   doEmbed_within_limit { provider := "hf", modelId := "m" } extractSample
     none ["good", "bad"] [] (by decide)⟩

/-- C2: for every embedding batch with more than 2048 values, `doEmbed`
throws `TooManyEmbeddingValuesForCallError` carrying the provider, the
model id, the limit and the offending values, the pipeline factory and the
extractor never run, and the cached pipeline instance is unchanged. -/
theorem doEmbed_over_limit (cfg : EmbedConfig)
    (extract : String → Except String (List (List ℚ)))
    (pipelineInstance : Option Unit) (values : List String)
    (headers : List (String × String))
    (h : values.length > maxEmbeddingsPerCall) :
    doEmbed cfg extract pipelineInstance values headers =
      (Except.error
        { provider := cfg.provider
          modelId := cfg.modelId
          maxEmbeddingsPerCall := maxEmbeddingsPerCall
          values := values },
       pipelineInstance,
       { factoryCalls := 0, extractorInputs := [] }) := by
  simp [doEmbed, h]

/-- Witness for C2 at a batch of 2049 values. -/
theorem doEmbed_over_limit_witness :
    ((List.replicate 2049 "x").length > maxEmbeddingsPerCall) ∧
    doEmbed { provider := "hf", modelId := "m" } extractSample none
        (List.replicate 2049 "x") [] =
      (Except.error
        { provider := "hf"
          modelId := "m"
          maxEmbeddingsPerCall := maxEmbeddingsPerCall
          values := List.replicate 2049 "x" },
       none,
       { factoryCalls := 0, extractorInputs := [] }) :=
  ⟨by simp only [List.length_replicate, maxEmbeddingsPerCall]; decide,
   doEmbed_over_limit { provider := "hf", modelId := "m" } extractSample
     none (List.replicate 2049 "x") []
     (by simp only [List.length_replicate, maxEmbeddingsPerCall]; decide)⟩

/-- Reading a list back positionwise reconstructs it. -/
theorem map_range_getD (l : List ℚ) :
    (List.range l.length).map (fun i => l.getD i 0) = l := by
  apply List.ext_getElem
  · simp
  · intro n h1 h2
    simp [List.getD_eq_getElem?_getD, List.getElem?_eq_getElem h2]

/-- The accumulation loop of `averageTokenVectors`, run over a
uniform-width token-vector set, adds the positionwise sums of the vectors
on top of the accumulator. -/
theorem sumLoop_uniform (d : Nat) (tv : List (List ℚ)) :
    ∀ (acc : List ℚ), (∀ v ∈ tv, v.length = d) → acc.length = d →
      tv.foldl
        (fun acc vec =>
          if vec.length = d then List.zipWith (fun a b => a + b) acc vec
          else acc)
        acc
      = (List.range d).map
          (fun i => acc.getD i 0 + (tv.map (fun v => v.getD i 0)).sum) := by
  induction tv with
  | nil =>
    intro acc _ hacc
    simp only [List.foldl_nil, List.map_nil, List.sum_nil, add_zero]
    rw [← hacc, map_range_getD]
  | cons v rest ih =>
    intro acc hall hacc
    have hv : v.length = d := hall v (List.mem_cons_self v rest)
    have hrest : ∀ w ∈ rest, w.length = d := fun w hw =>
      hall w (List.mem_cons_of_mem v hw)
    have hlen : (List.zipWith (fun a b => a + b) acc v).length = d := by
      simp [List.length_zipWith, hacc, hv]
    simp only [List.foldl_cons, if_pos hv]
    rw [ih (List.zipWith (fun a b => a + b) acc v) hrest hlen]
    apply List.map_congr_left
    intro i hi
    rw [List.mem_range] at hi
    have hi1 : i < acc.length := by omega
    have hi2 : i < v.length := by omega
    have hiz : i < (List.zipWith (fun a b => a + b) acc v).length := by omega
    simp only [List.map_cons, List.sum_cons]
    rw [List.getD_eq_getElem?_getD, List.getElem?_eq_getElem hiz,
      Option.getD_some, List.getElem_zipWith,
      List.getD_eq_getElem?_getD (l := acc), List.getElem?_eq_getElem hi1,
      List.getD_eq_getElem?_getD (l := v), List.getElem?_eq_getElem hi2]
    simp [add_assoc]

/-- On a nonempty set of token vectors of one common nonzero width, the
source's averaging loop computes exactly the componentwise arithmetic
mean. -/
theorem averageTokenVectors_uniform_eq (tv : List (List ℚ)) (d : Nat)
    (hne : tv ≠ []) (hd : d ≠ 0) (hall : ∀ v ∈ tv, v.length = d) :
    averageTokenVectors tv = componentwiseMeanSpec tv d := by
  obtain ⟨v, rest, rfl⟩ := List.exists_cons_of_ne_nil hne
  have hv : v.length = d := hall v (List.mem_cons_self v rest)
  have hhead : ((v :: rest).headD []) = v := rfl
  rw [averageTokenVectors, if_neg (by simp [hhead, hv, hd]), hhead, hv,
    sumLoop_uniform d (v :: rest) (List.replicate d 0) hall
      (List.length_replicate d 0),
    componentwiseMeanSpec, List.map_map]
  apply List.map_congr_left
  intro i hi
  rw [List.mem_range] at hi
  simp only [Function.comp_apply]
  rw [List.getD_eq_getElem?_getD, List.getElem?_getD_replicate_default_eq,
    zero_add]

/-- C7: each input's token-vector set is reduced to one vector by
componentwise arithmetic mean (sum over the token vectors of equal width,
divided by the token count); in particular `[[1,2],[3,4]]` averages to
`[2,3]`, and zero token vectors or zero-width vectors yield the empty
vector while the batch as a whole still succeeds. -/
theorem embedding_averaging :
    (∀ (tv : List (List ℚ)) (d : Nat), tv ≠ [] → d ≠ 0 →
      (∀ v ∈ tv, v.length = d) →
      averageTokenVectors tv = componentwiseMeanSpec tv d) ∧
    averageTokenVectors [[1, 2], [3, 4]] = [2, 3] ∧
    averageTokenVectors [] = [] ∧
    averageTokenVectors [[]] = [] ∧
    (∀ (cfg : EmbedConfig) (input : String)
      (headers : List (String × String)),
      (doEmbed cfg (fun _ => Except.ok [[]]) none [input] headers).1 =
        Except.ok
          { embeddings := [[]], usageTokens := 1,
            rawResponseHeaders := headers }) := by
  refine ⟨averageTokenVectors_uniform_eq, ?_, ?_, ?_, ?_⟩
  · norm_num [averageTokenVectors, List.foldl, List.zipWith, List.replicate]
  · rfl
  · rfl
  · intro cfg input headers
    simp [doEmbed, maxEmbeddingsPerCall, embedOne, averageTokenVectors]

/-- Witness for C7 at the token-vector set `[[1,2],[3,4]]` of width 2. -/
theorem embedding_averaging_witness :
    (([[1, 2], [3, 4]] : List (List ℚ)) ≠ [] ∧ (2 : Nat) ≠ 0 ∧
      (∀ v ∈ ([[1, 2], [3, 4]] : List (List ℚ)), v.length = 2)) ∧
    averageTokenVectors [[1, 2], [3, 4]] =
      componentwiseMeanSpec [[1, 2], [3, 4]] 2 :=
  ⟨⟨by simp, by decide, by simp⟩,
   embedding_averaging.1 [[1, 2], [3, 4]] 2 (by simp) (by decide) (by simp)⟩

/-- C3: on every generate or stream call of every language-model adapter,
the derived runtime options use `max_new_tokens = maxTokens` when given
and 512 otherwise, `temperature` as given and 0 otherwise, and
`do_sample` is exactly the sign test on the effective temperature: false
for every temperature at most 0 (including unset), true for every
positive temperature. All adapters derive their options through
`mkGenerationOptions`, as witnessed by the raw settings they report. -/
theorem generation_options_derivation :
    (∀ (n : Nat) (t : Option ℚ),
      (mkGenerationOptions (some n) t).max_new_tokens = n) ∧
    (∀ t : Option ℚ, (mkGenerationOptions none t).max_new_tokens = 512) ∧
    (∀ (mt : Option Nat) (t : ℚ),
      (mkGenerationOptions mt (some t)).temperature = t) ∧
    (∀ mt : Option Nat, (mkGenerationOptions mt none).temperature = 0) ∧
    (∀ (mt : Option Nat) (t : ℚ), t ≤ 0 →
      (mkGenerationOptions mt (some t)).do_sample = false) ∧
    (∀ mt : Option Nat, (mkGenerationOptions mt none).do_sample = false) ∧
    (∀ (mt : Option Nat) (t : ℚ), 0 < t →
      (mkGenerationOptions mt (some t)).do_sample = true) ∧
    (∀ (pn : String → GenerationOptions →
        Except GenError (List TextGenerationOutput))
      (prompt : Prompt) (mt : Option Nat) (t : Option ℚ)
      (r : ChatGenResult),
      chatDoGenerateImpl pn prompt mt t = Except.ok r →
      r.rawSettings = mkGenerationOptions mt t) ∧
    (∀ (pn : String → GenerationOptions →
        Except GenError (List OpenAIChatOutput))
      (prompt : Prompt) (mt : Option Nat) (t : Option ℚ)
      (r : ChatGenResult),
      chatOpenAICompatibleDoGenerateImpl pn prompt mt t = Except.ok r →
      r.rawSettings = mkGenerationOptions mt t) ∧
    (∀ (pn : String → GenerationOptions →
        Except GenError (List TextGenerationOutput))
      (p : String) (mt : Option Nat) (t : Option ℚ)
      (r : CompletionGenResult),
      completionDoGenerate pn p mt t = Except.ok r →
      r.requestBody.options = mkGenerationOptions mt t) ∧
    (∀ (pn : String → GenerationOptions →
        Except GenError (List OpenAICompletionOutput))
      (p : String) (mt : Option Nat) (t : Option ℚ)
      (r : CompletionOpenAIGenResult),
      completionOpenAICompatibleDoGenerate pn p mt t = Except.ok r →
      r.requestBody.options = mkGenerationOptions mt t) ∧
    (∀ (load : Except GenError Unit) (tokens : List String)
      (runOutcome : Except GenError (List TextGenerationOutput))
      (prompt : Prompt) (mt : Option Nat) (t : Option ℚ)
      (r : ChatStreamResult),
      chatDoStreamImplementation load tokens runOutcome prompt mt t =
        Except.ok r →
      r.rawSettings = mkGenerationOptions mt t) := by
  refine ⟨fun n t => rfl, fun t => rfl, fun mt t => rfl, fun mt => rfl,
    ?_, fun mt => rfl, ?_, ?_, ?_, ?_, ?_, ?_⟩
  · intro mt t ht
    simp [mkGenerationOptions, not_lt.mpr ht]
  · intro mt t ht
    simp [mkGenerationOptions, ht]
  · intro pn prompt mt t r hr
    simp only [chatDoGenerateImpl] at hr
    split at hr
    · exact absurd hr (by simp)
    · split at hr
      · exact absurd hr (by simp)
      · rw [show r = _ from (Except.ok.inj hr).symm]
  · intro pn prompt mt t r hr
    simp only [chatOpenAICompatibleDoGenerateImpl] at hr
    split at hr
    · exact absurd hr (by simp)
    · split at hr
      · exact absurd hr (by simp)
      · rw [show r = _ from (Except.ok.inj hr).symm]
  · intro pn p mt t r hr
    simp only [completionDoGenerate] at hr
    split at hr
    · exact absurd hr (by simp)
    · split at hr
      · exact absurd hr (by simp)
      · rw [show r = _ from (Except.ok.inj hr).symm]
  · intro pn p mt t r hr
    simp only [completionOpenAICompatibleDoGenerate] at hr
    split at hr
    · exact absurd hr (by simp)
    · split at hr
      · exact absurd hr (by simp)
      · rw [show r = _ from (Except.ok.inj hr).symm]
  · intro load tokens runOutcome prompt mt t r hr
    simp only [chatDoStreamImplementation] at hr
    split at hr
    · exact absurd hr (by simp)
    · rw [show r = _ from (Except.ok.inj hr).symm]

/-- Witness for C3: unset options on a concrete successful generate call
give 512 tokens, temperature 0 and deterministic sampling. -/
theorem generation_options_derivation_witness :
    ((0 : ℚ) ≤ 0 ∧ (mkGenerationOptions none (some 0)).do_sample = false) ∧
    (mkGenerationOptions none none).max_new_tokens = 512 ∧
    chatDoGenerateImpl
        (fun _ _ => Except.ok [{ generated_text := "g" }])
        (Prompt.str "p") none none =
      Except.ok
        { text := "g", finishReason := FinishReason.stop,
          promptTokens := 1, completionTokens := 1, rawPrompt := "p",
          rawSettings := mkGenerationOptions none none } ∧
    ({ text := "g", finishReason := FinishReason.stop, promptTokens := 1,
       completionTokens := 1, rawPrompt := "p",
       rawSettings := mkGenerationOptions none none } :
      ChatGenResult).rawSettings = mkGenerationOptions none none := by
  refine ⟨⟨le_refl 0,
    generation_options_derivation.2.2.2.2.1 none 0 (le_refl 0)⟩,
    generation_options_derivation.2.1 none, rfl, ?_⟩
  exact generation_options_derivation.2.2.2.2.2.2.2.1
    (fun _ _ => Except.ok [{ generated_text := "g" }])
    (Prompt.str "p") none none _ rfl

/-- The character data of a JavaScript-style join is the list-level
intercalation of the characters of the pieces. -/
theorem joinWith_data (sep : String) (l : List String) :
    (joinWith sep l).data =
      List.intercalate sep.data (l.map String.data) := by
  induction l with
  | nil => rfl
  | cons x xs ih =>
    cases xs with
    | nil => simp [joinWith, List.intercalate]
    | cons y ys =>
      rw [joinWith, String.data_append, String.data_append, ih]
      simp [List.intercalate, List.intersperse]

/-- C4 (amended): for a nonempty message sequence none of whose rendered
messages itself contains a newline, the normalized prompt splits on
newline into exactly the rendered messages, one line per message, in
original order, so its line count equals the message count. -/
theorem convertPrompt_lines (ms : List Message) (hne : ms ≠ [])
    (hnl : ∀ m ∈ ms, ('\n' : Char) ∉ (renderMessage m).data) :
    linesOf (convertPromptToString (Prompt.messages ms)) =
        ms.map (fun m => (renderMessage m).data) ∧
    (linesOf (convertPromptToString (Prompt.messages ms))).length
        = ms.length := by
  have key : linesOf (convertPromptToString (Prompt.messages ms))
      = ms.map (fun m => (renderMessage m).data) := by
    rw [linesOf, convertPromptToString, joinWith_data, List.map_map]
    have hdata : ("\n" : String).data = ['\n'] := rfl
    rw [hdata]
    refine List.splitOn_intercalate _ '\n' ?_ ?_
    · intro l hl
      rw [List.mem_map] at hl
      obtain ⟨m, hm, rfl⟩ := hl
      exact hnl m hm
    · simp [hne]
  exact ⟨key, by rw [key, List.length_map]⟩

/-- Counterexample to C4 as stated: a single message whose string content
contains a newline renders to a two-line output, so the output line count
(2) differs from the message count (1). -/
theorem convertPrompt_linecount_counterexample :
    (linesOf (convertPromptToString
      (Prompt.messages
        [{ role := "user", content := MessageContent.str "a\nb" }]))).length
      = 2 ∧
    ([{ role := "user", content := MessageContent.str "a\nb" }] :
      List Message).length = 1 ∧
    (2 : Nat) ≠ 1 := by
  refine ⟨by decide, rfl, by decide⟩

/-- Witness for C4 (amended) at `witnessMessages`. -/
theorem convertPrompt_lines_witness :
    (witnessMessages ≠ [] ∧
     ∀ m ∈ witnessMessages, ('\n' : Char) ∉ (renderMessage m).data) ∧
    (linesOf (convertPromptToString (Prompt.messages witnessMessages)) =
        witnessMessages.map (fun m => (renderMessage m).data) ∧
     (linesOf (convertPromptToString
        (Prompt.messages witnessMessages))).length =
        witnessMessages.length) :=
  ⟨⟨by decide, by decide⟩,
   convertPrompt_lines witnessMessages (by decide) (by decide)⟩

/-- C6 (amended): every successful generate call of the plain chat
adapter and of the OpenAI-compatible chat adapter returns the fixed finish
reason stop; only the OpenAI-compatible completion adapter derives its
finish reason by applying the finish-reason mapper to the raw completion
reason of the pipeline output (the plain completion adapter returns no
finish reason at all: its result type has no such field). -/
theorem finish_reason_variants :
    (∀ (pn : String → GenerationOptions →
        Except GenError (List TextGenerationOutput))
      (prompt : Prompt) (mt : Option Nat) (t : Option ℚ)
      (r : ChatGenResult),
      chatDoGenerateImpl pn prompt mt t = Except.ok r →
      r.finishReason = FinishReason.stop) ∧
    (∀ (pn : String → GenerationOptions →
        Except GenError (List OpenAIChatOutput))
      (prompt : Prompt) (mt : Option Nat) (t : Option ℚ)
      (r : ChatGenResult),
      chatOpenAICompatibleDoGenerateImpl pn prompt mt t = Except.ok r →
      r.finishReason = FinishReason.stop) ∧
    (∀ (pn : String → GenerationOptions →
        Except GenError (List OpenAICompletionOutput))
      (p : String) (mt : Option Nat) (t : Option ℚ)
      (out : List OpenAICompletionOutput) (r : CompletionOpenAIGenResult),
      pn p (mkGenerationOptions mt t) = Except.ok out →
      completionOpenAICompatibleDoGenerate pn p mt t = Except.ok r →
      ∃ first, out.head? = some first ∧
        r.finishReason =
          mapOpenAICompatibleFinishReason first.finish_reason) := by
  refine ⟨?_, ?_, ?_⟩
  · intro pn prompt mt t r hr
    simp only [chatDoGenerateImpl] at hr
    split at hr
    · exact absurd hr (by simp)
    · split at hr
      · exact absurd hr (by simp)
      · rw [show r = _ from (Except.ok.inj hr).symm]
  · intro pn prompt mt t r hr
    simp only [chatOpenAICompatibleDoGenerateImpl] at hr
    split at hr
    · exact absurd hr (by simp)
    · split at hr
      · exact absurd hr (by simp)
      · rw [show r = _ from (Except.ok.inj hr).symm]
  · intro pn p mt t out r hpn hr
    simp only [completionOpenAICompatibleDoGenerate, hpn] at hr
    cases hout : out.head? with
    | none => rw [hout] at hr; exact absurd hr (by simp)
    | some first =>
      rw [hout] at hr
      exact ⟨first, rfl, by rw [show r = _ from (Except.ok.inj hr).symm]⟩

/-- Counterexample to C6 as stated: the OpenAI-compatible chat adapter,
run on a pipeline output whose raw completion reason is `length`, returns
the fixed finish reason stop, which differs from what the finish-reason
mapper yields on that raw reason. -/
theorem chatOpenAI_finish_reason_counterexample :
    ∃ r : ChatGenResult,
      chatOpenAICompatibleDoGenerateImpl rawLengthChatPipeline
          (Prompt.str "p") none none = Except.ok r ∧
      r.finishReason = FinishReason.stop ∧
      mapOpenAICompatibleFinishReason "length" = FinishReason.length ∧
      r.finishReason ≠ mapOpenAICompatibleFinishReason "length" := by
  refine ⟨{ text := "hi", finishReason := FinishReason.stop,
            promptTokens := 1, completionTokens := 1, rawPrompt := "p",
            rawSettings := mkGenerationOptions none none },
    rfl, rfl, rfl, by decide⟩

/-- Witness for C6 (amended): concrete successful calls of all three
finish-reason-carrying adapters. -/
theorem finish_reason_variants_witness :
    ({ text := "g", finishReason := FinishReason.stop, promptTokens := 1,
       completionTokens := 1, rawPrompt := "p",
       rawSettings := mkGenerationOptions none none } :
      ChatGenResult).finishReason = FinishReason.stop ∧
    (∃ first : OpenAICompletionOutput,
      ([{ generated_text := "done", finish_reason := "length" }] :
        List OpenAICompletionOutput).head? = some first ∧
      ({ text := "done",
         finishReason := mapOpenAICompatibleFinishReason "length",
         requestBody :=
           { prompt := "q", options := mkGenerationOptions none none } } :
        CompletionOpenAIGenResult).finishReason =
        mapOpenAICompatibleFinishReason first.finish_reason) :=
  ⟨finish_reason_variants.1
      (fun _ _ => Except.ok [{ generated_text := "g" }])
      (Prompt.str "p") none none _ rfl,
   finish_reason_variants.2.2 rawLengthCompletionPipeline "q" none none
      [{ generated_text := "done", finish_reason := "length" }] _ rfl rfl⟩

/-- The token-callback loop appends exactly one text-delta per non-empty
token, in emission order. -/
theorem streamStart_foldl_eq (tokens : List String) :
    ∀ acc : List StreamPart,
      tokens.foldl
        (fun acc token =>
          if token ≠ "" then acc ++ [StreamPart.textDelta token] else acc)
        acc
      = acc ++ (tokens.filter (fun token => token ≠ "")).map
          (fun token => StreamPart.textDelta token) := by
  induction tokens with
  | nil => intro acc; simp
  | cons token rest ih =>
    intro acc
    rw [List.foldl_cons, List.filter_cons]
    by_cases h : token = ""
    · subst h
      rw [if_neg (by simp), if_neg (by simp)]
      exact ih acc
    · rw [if_pos h, if_pos (decide_eq_true h), List.map_cons,
        ih (acc ++ [StreamPart.textDelta token])]
      simp

/-- The events side of the plain chat adapter's stream does not depend on
the pipeline outcome: it is the text-deltas of the non-empty tokens. -/
theorem runChatStreamStart_events {Output : Type} (tokens : List String)
    (outcome : Except GenError Output) :
    (runChatStreamStart tokens outcome).1 =
      (tokens.filter (fun token => token ≠ "")).map
        (fun token => StreamPart.textDelta token) := by
  rcases outcome with e | v <;>
    · simp only [runChatStreamStart]
      rw [streamStart_foldl_eq tokens []]
      exact List.nil_append _

/-- The same computation for the OpenAI-compatible chat adapter's copy. -/
theorem runOpenAIChatStreamStart_events {Output : Type}
    (tokens : List String) (outcome : Except GenError Output) :
    (runOpenAIChatStreamStart tokens outcome).1 =
      (tokens.filter (fun token => token ≠ "")).map
        (fun token => StreamPart.textDelta token) := by
  rcases outcome with e | v <;>
    · simp only [runOpenAIChatStreamStart]
      rw [streamStart_foldl_eq tokens []]
      exact List.nil_append _

/-- C8: a stream call during which the runtime emits the tokens `Hello`,
a space, `world`, `!` and then resolves yields a stream with exactly four
text-delta elements carrying those tokens in emission order, terminated by
a single close. -/
theorem stream_hello_world (prompt : Prompt) (mt : Option Nat)
    (t : Option ℚ) (out : List TextGenerationOutput) :
    ∃ r : ChatStreamResult,
      chatDoStreamImplementation (Except.ok ()) ["Hello", " ", "world", "!"]
          (Except.ok out) prompt mt t = Except.ok r ∧
      r.events =
        [StreamPart.textDelta "Hello", StreamPart.textDelta " ",
         StreamPart.textDelta "world", StreamPart.textDelta "!"] ∧
      r.terminal = StreamTerminal.closed := by
  exact ⟨_, rfl, rfl, rfl⟩

/-- C9: when the pipeline invocation fails after the stream has been
created (the pipeline itself had loaded fine), the stream-setup call still
returns the stream successfully and the failure surfaces as the stream's
terminal error state, carrying the pipeline error to the consumer. -/
theorem stream_terminal_error (prompt : Prompt) (mt : Option Nat)
    (t : Option ℚ) (tokens : List String) (e : GenError) :
    ∃ r : ChatStreamResult,
      chatDoStreamImplementation (Except.ok ()) tokens (Except.error e)
          prompt mt t = Except.ok r ∧
      r.terminal = StreamTerminal.errored e := by
  exact ⟨_, rfl, rfl⟩

/-- C10: in both chat adapters' streaming bridges an empty-string token
produces no stream element; the enqueued elements are exactly the
non-empty tokens, as text-deltas, in emission order, so their number is
the number of non-empty tokens emitted. -/
theorem stream_empty_token_filtered :
    (∀ (Output : Type) (tokens : List String)
      (outcome : Except GenError Output),
      (runChatStreamStart tokens outcome).1 =
        (tokens.filter (fun token => token ≠ "")).map
          (fun token => StreamPart.textDelta token) ∧
      (runChatStreamStart tokens outcome).1.length =
        (tokens.filter (fun token => token ≠ "")).length) ∧
    (∀ (Output : Type) (tokens : List String)
      (outcome : Except GenError Output),
      (runOpenAIChatStreamStart tokens outcome).1 =
        (tokens.filter (fun token => token ≠ "")).map
          (fun token => StreamPart.textDelta token) ∧
      (runOpenAIChatStreamStart tokens outcome).1.length =
        (tokens.filter (fun token => token ≠ "")).length) := by
  constructor
  · intro Output tokens outcome
    exact ⟨runChatStreamStart_events tokens outcome,
      by rw [runChatStreamStart_events tokens outcome, List.length_map]⟩
  · intro Output tokens outcome
    exact ⟨runOpenAIChatStreamStart_events tokens outcome,
      by rw [runOpenAIChatStreamStart_events tokens outcome,
        List.length_map]⟩

/-- C5 evaluation: the boolean-flag guard of `ensurePipeline` memoizes
sequential calls (a full first call followed by a second call invokes the
factory once), but two concurrent first calls that both pass the
emptiness check before either assignment each invoke the factory: two
factory calls, and the two callers finish with two distinct pipeline
instances rather than one shared load. -/
theorem ensurePipeline_race :
    (ensureRun [0, 0, 1, 1] (freshEnsureState 2)).factoryCalls = 1 ∧
    (ensureRun [0, 1, 0, 1] (freshEnsureState 2)).factoryCalls = 2 ∧
    (ensureRun [0, 1, 0, 1] (freshEnsureState 2)).tasks =
      [EnsureTask.finished 0, EnsureTask.finished 1] ∧
    (ensureRun [0, 0, 1, 1] (freshEnsureState 2)).tasks =
      [EnsureTask.finished 0, EnsureTask.finished 0] := by
  refine ⟨by decide, by decide, by decide, by decide⟩

end AiSdkHuggingface
